import Mathlib

/-!
Verification development for the news-aggregation / wordcloud script
(word_cloud.py).  The script loads RSS feed URLs from a YAML config,
collects article links from each feed, downloads and parses each
article with newspaper3k, builds a pandas DataFrame (optionally
written to a dated CSV), and renders several wordcloud images.

The embedding below translates the orchestration logic of the script
into Lean.  External libraries (requests, BeautifulSoup, newspaper3k,
PIL, matplotlib, the wordcloud package, nltk) are modelled as
environment records of functions supplied as parameters: the script
treats them as opaque capabilities, and only the documented shape of
their results matters to the orchestration.
-/

/-- Python exceptions relevant to the modelled control flow. -/
inductive PyErr where
  | ioError
  | yamlError
  | attributeError
  deriving DecidableEq, Repr

/-- Result of yaml.safe_load on the config file.  A YAML mapping is
modelled with its optional feeds key, holding the list of feed URL
strings; any non-mapping parse result (for example None, produced by
an empty file, or a bare scalar) is modelled by nondict, on which the
attribute lookup feed_file.get would raise AttributeError. -/
inductive YamlValue where
  | dict (feeds : Option (List String))
  | nondict
  deriving DecidableEq, Repr

/-- One item element of a parsed RSS document.  linkTag is none when
the item has no link child; some s when a link tag with text s is
present (s may be empty, matching an empty tag). -/
structure RssItem where
  linkTag : Option String
  deriving DecidableEq, Repr

/-- Environment of external effects used by collect_news_articles.
fetchFeed models requests.get followed by the BeautifulSoup XML parse
of the response: any exception in that fetch/parse step is an error
value.  download, parse and nlp model the three newspaper3k stages
article.download, article.parse and article.nlp: none means the stage
raised; parse yields the article text, nlp yields the keyword list. -/
structure FetchEnv where
  fetchFeed : String → Except Unit (List RssItem)
  download : String → Option String
  parse : String → Option String
  nlp : String → Option (List String)

/-- Links contributed by one feed: on any fetch/parse failure the
except-block skips the feed so it contributes nothing; on success
every item whose link tag exists and has non-empty text contributes
its text (the Python guard: if link_tag and link_tag.text). -/
def feedLinks (env : FetchEnv) (feed : String) : List String :=
  match env.fetchFeed feed with
  | .error _ => []
  | .ok items =>
      items.filterMap fun it =>
        match it.linkTag with
        | none => none
        | some s => if s = "" then none else some s

/-- The feed loop of collect_news_articles: accumulates the links of
every feed in order into one flat list. -/
def collectLinks (env : FetchEnv) : List String → List String
  | [] => []
  | f :: rest => feedLinks env f ++ collectLinks env rest

/-- One row of the resulting DataFrame: URL, Keywords, Text. -/
structure Row where
  url : String
  keywords : List String
  text : String
  deriving DecidableEq, Repr

/-- Processing of a single article URL: Article(url), download, parse,
nlp; any stage failing means the URL is skipped, otherwise the row
[url, article.keywords, article.text] is produced. -/
def processArticle (env : FetchEnv) (url : String) : Option Row :=
  match env.download url with
  | none => none
  | some raw =>
      match env.parse raw with
      | none => none
      | some txt =>
          match env.nlp txt with
          | none => none
          | some kws => some ⟨url, kws, txt⟩

/-- The article loop of collect_news_articles: each URL in order is
processed; failed URLs are skipped by the except-block, successful
ones append one row. -/
def buildData (env : FetchEnv) : List String → List Row
  | [] => []
  | url :: rest =>
      match processArticle env url with
      | some r => r :: buildData env rest
      | none => buildData env rest

/-- A calendar date, as used for output file naming. -/
structure Date where
  month : Nat
  day : Nat
  year : Nat
  deriving DecidableEq, Repr

/-- Two-digit zero padding, as strftime produces. -/
def pad2 (n : Nat) : String :=
  if n < 10 then "0" ++ toString n else toString n

/-- today.strftime of the pattern month underscore day underscore
two-digit year, used in every output filename. -/
def strftimeMDY (d : Date) : String :=
  pad2 d.month ++ "_" ++ pad2 d.day ++ "_" ++ pad2 (d.year % 100)

/-- The single-quote character, used by the Python str rendering of a
keyword list inside the CSV. -/
def pySquote : String := String.singleton (Char.ofNat 39)

/-- Python str of a list of strings, the form pandas writes for the
Keywords column. -/
def pyListRepr (xs : List String) : String :=
  "[" ++ String.intercalate ", " (xs.map fun s => pySquote ++ s ++ pySquote) ++ "]"

/-- An emitted CSV file: its name and its rows, each row a list of
cell strings.  index=False, so no index column is written. -/
structure CsvFile where
  filename : String
  rows : List (List String)
  deriving DecidableEq, Repr

/-- The fixed header of the archival CSV. -/
def csvHeader : List String := ["URL", "Keywords", "Text"]

/-- df.to_csv of the collected DataFrame: header row followed by one
row per article record, filename dated with strftime. -/
def dfToCsv (today : Date) (data : List Row) : CsvFile :=
  ⟨strftimeMDY today ++ "_news.csv",
   csvHeader :: data.map fun r => [r.url, pyListRepr r.keywords, r.text]⟩

/-- The observable outcome of a successful collect_news_articles run:
the DataFrame rows and the CSV file written, when output_csv. -/
structure RunResult where
  rows : List Row
  csv : Option CsvFile
  deriving DecidableEq, Repr

/-- collect_news_articles.  The file read together with yaml.safe_load
is outside every try-block, so its failure propagates (cfg error).
On a non-mapping YAML value the feeds lookup feed_file.get raises
AttributeError, also uncaught.  On a mapping, a missing feeds key
defaults to the empty list; the feed loop and article loop then run,
and the CSV is written when output_csv is set. -/
def collect_news_articles (env : FetchEnv) (cfg : Except PyErr YamlValue)
    (today : Date) (output_csv : Bool) : Except PyErr RunResult :=
  match cfg with
  | .error e => .error e
  | .ok .nondict => .error .attributeError
  | .ok (.dict feeds?) =>
      let articles := collectLinks env (feeds?.getD [])
      let data := buildData env articles
      .ok ⟨data, if output_csv then some (dfToCsv today data) else none⟩

/-- Opaque pixel data of np.array applied to a decoded mask image. -/
abbrev MaskData := List Nat

/-- Opaque token for an ImageColorGenerator built from a mask. -/
abbrev ColorToken := Nat

/-- Opaque token for the laid-out wordcloud canvas. -/
abbrev WcLayout := Nat

/-- Opaque token for the rasterized bytes of a saved image. -/
abbrev ImgBytes := Nat

/-- The keyword arguments the script passes to the WordCloud
constructor: stopwords, collocations (always False here),
background_color, mask, colormap, random_state. -/
structure WCParams where
  stopwords : Finset String
  collocations : Bool
  background_color : String
  mask : Option MaskData
  colormap : Option String
  random_state : Option Nat
  deriving DecidableEq

/-- Environment of external rendering capabilities used by
generate_wordcloud.  openImage models Image.open plus np.array (an
invalid path raises, hence the error case).  imageColorGenerator
models ImageColorGenerator over the mask pixels.  wcCore models the
layout computed by WordCloud(params).generate(text); its last
argument is the seed actually driving placement and coloring: per the
wordcloud library contract this is random_state when supplied, and
the ambient global random state otherwise, which the wrapper
wcGenerate below encodes.  recolorWith models wordcloud.recolor with
a color_func.  renderFigure models the plt figure, imshow and savefig
rasterization at the given figsize. -/
structure RenderEnv where
  openImage : String → Except PyErr MaskData
  imageColorGenerator : MaskData → ColorToken
  wcCore : WCParams → String → Nat → WcLayout
  recolorWith : WcLayout → ColorToken → WcLayout
  renderFigure : WcLayout → Nat × Nat → ImgBytes

/-- WordCloud(params).generate(text) under ambient global random
state rng: deterministic in params and text when random_state is
supplied, dependent on rng otherwise. -/
def wcGenerate (ext : RenderEnv) (p : WCParams) (text : String) (rng : Nat) : WcLayout :=
  ext.wcCore p text (p.random_state.getD rng)

/-- A saved PNG artifact: its filename and its pixel bytes. -/
structure SavedImage where
  filename : String
  image : ImgBytes
  deriving DecidableEq, Repr

/-- The Style Configuration of one generate_wordcloud invocation: all
keyword parameters of the Python function after text, the output name
and the date.  outName corresponds to the Python parameter holding
the output filename stem. -/
structure Style where
  stopwords : Finset String
  mask_image : Option String
  figsize : Nat × Nat
  background_color : String
  colormap : Option String
  recolor_from_mask : Bool
  random_state : Option Nat
  deriving DecidableEq

/-- generate_wordcloud.  Mirrors the source: mask and image_colors
start as None; when mask_image is given the image is opened (a bad
path raises out of the call) and, when recolor_from_mask is also set,
an ImageColorGenerator is built from it; the WordCloud is generated
with collocations disabled; when image_colors was built the cloud is
recolored from it; the figure is rendered and saved under the dated
filename.  rng is the ambient global random state consumed only when
random_state is None. -/
def generate_wordcloud (ext : RenderEnv) (text outName : String)
    (today : Date) (s : Style) (rng : Nat) : Except PyErr SavedImage :=
  let finish : Option MaskData → Option ColorToken → SavedImage :=
    fun mask image_colors =>
      let params : WCParams :=
        ⟨s.stopwords, false, s.background_color, mask, s.colormap, s.random_state⟩
      let wc := wcGenerate ext params text rng
      let wc2 := match image_colors with
                 | some c => ext.recolorWith wc c
                 | none => wc
      ⟨outName ++ "_" ++ strftimeMDY today ++ ".png", ext.renderFigure wc2 s.figsize⟩
  match s.mask_image with
  | none => .ok (finish none none)
  | some path =>
      match ext.openImage path with
      | .error e => .error e
      | .ok m =>
          .ok (finish (some m)
            (if s.recolor_from_mask then some (ext.imageColorGenerator m) else none))

/-- The fixed list of extra excluded terms the orchestrator adds to
the default stopword set (the duplicate entry is kept as in the
source; set update collapses it). -/
def extraStopwordList : List String :=
  ["globalnews", "guardian", "abc", "nbc", "cbs", "nytimes", "globalnews", "state"]

/-- The augmented stopword set the orchestrator builds: a copy of the
default set STOPWORDS updated with the extra terms.  The default set
lives in the external wordcloud package, so it is a parameter D. -/
def mainStopwords (D : Finset String) : Finset String :=
  D ∪ extraStopwordList.toFinset

/-- The flattening of all keyword lists of the dataset into one
whitespace-joined text blob, as in the list comprehension of the
orchestrator. -/
def mainText (rows : List Row) : String :=
  String.intercalate " " (rows.flatMap fun r => r.keywords)

/-- One renderer invocation of the orchestrator: the output name stem
and the Style Configuration it passes. -/
structure RenderCall where
  outName : String
  style : Style
  deriving DecidableEq

/-- The four hardcoded style-preset invocations of the orchestrator,
in source order, as a function of the default stopword set D:
the plain one, the US-flag mask-recolored one, the tree
mask-recolored one, and the colormap-styled one.  Omitted keyword
arguments take the Python defaults of generate_wordcloud
(background_color white, colormap None, recolor_from_mask False,
random_state None). -/
def mainRenderCalls (D : Finset String) : List RenderCall :=
  [ ⟨"original_wordcloud",
     ⟨mainStopwords D, none, (20, 20), "white", none, false, none⟩⟩,
    ⟨"us_flag_wordcloud",
     ⟨mainStopwords D, some "Flag.jpg", (30, 30), "white", none, true, none⟩⟩,
    ⟨"tree_wordcloud",
     ⟨mainStopwords D, some "Tree.jpg", (20, 20), "white", none, true, none⟩⟩,
    ⟨"wordcloud",
     ⟨D, some "comment.png", (50, 50), "white", some "rainbow", false, some 1⟩⟩ ]

/-- Outcomes of an NLTK data lookup: found, LookupError raised, or
some other exception raised. -/
inductive FindRes where
  | found
  | lookupErr
  | otherErr
  deriving DecidableEq, Repr

/-- The nltk.data.find capability, on the path string it is given. -/
structure NltkEnv where
  findTok : String → FindRes

/-- check_nltk_resource.  Returns the list of package names passed to
nltk.download, or an error when an uncaught exception escapes (the
inner try only catches LookupError, so another exception from the
second find propagates).  Both download calls in the source pass the
literal string resource_name, not the value of the parameter. -/
def check_nltk_resource (env : NltkEnv) (resource_name : String) :
    Except Unit (List String) :=
  match env.findTok ("tokenizers/" ++ resource_name ++ ".zip") with
  | .found => .ok []
  | .lookupErr => .ok ["resource_name"]
  | .otherErr =>
      match env.findTok ("tokenizers/" ++ resource_name) with
      | .found => .ok []
      | .lookupErr => .ok ["resource_name"]
      | .otherErr => .error ()

/-! Concrete environments used to witness the theorems below. -/

/-- A network environment in which every feed fetch raises and every
article stage fails. -/
def envAllFail : FetchEnv :=
  ⟨fun _ => .error (), fun _ => none, fun _ => none, fun _ => none⟩

/-- A network environment with one feed item linking one article that
downloads, parses and keyword-extracts successfully. -/
def envOneGood : FetchEnv :=
  ⟨fun _ => .ok [⟨some "http://a"⟩],
   fun _ => some "raw", fun _ => some "body", fun _ => some ["k1", "k2"]⟩

/-- A small concrete rendering environment. -/
def rcEnv0 : RenderEnv :=
  ⟨fun _ => .error .ioError, fun _ => 0, fun _ _ n => n + 1,
   fun l c => l + c, fun l f => l + f.1 + f.2⟩

/-- A concrete run date. -/
def d0 : Date := ⟨10, 12, 2026⟩

/-- A style with the recolor flag set but no mask image. -/
def styleRecolorNoMask : Style := ⟨∅, none, (20, 20), "white", none, true, none⟩

/-- A maskless style carrying a fixed random seed. -/
def styleSeeded : Style := ⟨∅, none, (20, 20), "white", none, false, some 7⟩

/-- An NLTK environment in which every lookup raises LookupError. -/
def nltkAllMissing : NltkEnv := ⟨fun _ => .lookupErr⟩

/-! Claim theorems. -/

/-- C1 counterexample: a generate_wordcloud call with
recolor_from_mask set and no mask image is not rejected as a
configuration error: at this concrete input it returns a successfully
rendered, saved image. -/
theorem recolor_without_mask_not_rejected :
    generate_wordcloud rcEnv0 "news words" "original_wordcloud" d0 styleRecolorNoMask 0 =
      .ok ⟨"original_wordcloud_10_12_26.png", 41⟩ := by
  rfl

/-- C1 (amended): with no mask image supplied, a generate_wordcloud
call with recolor_from_mask set renders successfully and silently
ignores the flag: its result is identical to the same call with the
flag cleared. -/
theorem recolor_without_mask_silently_ignored (ext : RenderEnv) (text outName : String)
    (today : Date) (s : Style) (rng : Nat) (hm : s.mask_image = none) :
    (generate_wordcloud ext text outName today s rng).isOk = true ∧
    generate_wordcloud ext text outName today s rng =
      generate_wordcloud ext text outName today { s with recolor_from_mask := false } rng := by
  cases s with
  | mk st mi fs bg cm rm rs =>
      cases hm
      simp [generate_wordcloud, Except.isOk, Except.toBool]

/-- Witness for C1 (amended) at a concrete input. -/
theorem recolor_without_mask_silently_ignored_witness :
    styleRecolorNoMask.mask_image = none ∧
    ((generate_wordcloud rcEnv0 "news words" "tree_wordcloud" d0 styleRecolorNoMask 0).isOk = true ∧
     generate_wordcloud rcEnv0 "news words" "tree_wordcloud" d0 styleRecolorNoMask 0 =
       generate_wordcloud rcEnv0 "news words" "tree_wordcloud" d0
         { styleRecolorNoMask with recolor_from_mask := false } 0) :=
  ⟨rfl, recolor_without_mask_silently_ignored rcEnv0 "news words" "tree_wordcloud" d0
    styleRecolorNoMask 0 rfl⟩

/-- C2 counterexample: with the default stopword set instantiated to
the empty set, the fourth hardcoded preset (the colormap-styled one)
does not receive the augmented stopword set. -/
theorem colormap_preset_not_augmented :
    ((mainRenderCalls ∅).getD 3 ⟨"", ⟨∅, none, (0, 0), "", none, false, none⟩⟩).style.stopwords ≠
      mainStopwords ∅ := by
  decide

/-- C2 (amended): the orchestrator builds one augmented stopword set,
the default set updated with the fixed extra terms, and passes it to
the plain preset and the two mask-recolored presets; the
colormap-styled preset instead receives the unaugmented default
set. -/
theorem preset_stopword_sets (D : Finset String) :
    mainStopwords D = D ∪ extraStopwordList.toFinset ∧
    (mainRenderCalls D).map (fun c => c.style.stopwords) =
      [mainStopwords D, mainStopwords D, mainStopwords D, D] :=
  ⟨rfl, rfl⟩

/-- C3: a feed whose fetch or parse fails contributes zero links, and
the collector loop is total, each feed contributing independently in
order: the accumulated list is exactly the concatenation of every
feed's own links. -/
theorem feed_failure_contributes_nothing (env : FetchEnv) (feeds : List String) (f : String)
    (h : env.fetchFeed f = .error ()) :
    feedLinks env f = [] ∧ collectLinks env feeds = feeds.flatMap (feedLinks env) := by
  constructor
  · simp [feedLinks, h]
  · induction feeds with
    | nil => simp [collectLinks]
    | cons a rest ih => simp [collectLinks, ih]

/-- Witness for C3 at a concrete failing feed. -/
theorem feed_failure_contributes_nothing_witness :
    envAllFail.fetchFeed "http://bad" = .error () ∧
    (feedLinks envAllFail "http://bad" = [] ∧
     collectLinks envAllFail ["http://bad"] = ["http://bad"].flatMap (feedLinks envAllFail)) :=
  ⟨rfl, feed_failure_contributes_nothing envAllFail ["http://bad"] "http://bad" rfl⟩

/-- C4: the article loop produces exactly one row per URL whose three
stages all succeed, in fetch order (the dataset is the filterMap of
per-article processing over the URL list), and the dataset size
equals the count of fully successful URLs. -/
theorem dataset_rows_iff_success (env : FetchEnv) (urls : List String) :
    buildData env urls = urls.filterMap (processArticle env) ∧
    (buildData env urls).length =
      (urls.filter fun u => (processArticle env u).isSome).length := by
  constructor
  · induction urls with
    | nil => rfl
    | cons u rest ih =>
        cases h : processArticle env u <;>
          simp [buildData, h, ih, List.filterMap_cons]
  · induction urls with
    | nil => rfl
    | cons u rest ih =>
        cases h : processArticle env u <;>
          simp [buildData, h, ih, List.filter_cons]

/-- C5: a config read or parse error is not caught inside
collect_news_articles and propagates to the caller unchanged, while a
mapping config without the feeds key yields an empty dataset and the
run completes normally. -/
theorem config_error_and_missing_feeds (env : FetchEnv) (today : Date) (oc : Bool) (e : PyErr) :
    collect_news_articles env (.error e) today oc = .error e ∧
    collect_news_articles env (.ok (.dict none)) today oc =
      .ok ⟨[], if oc then some (dfToCsv today []) else none⟩ :=
  ⟨rfl, rfl⟩

/-- C6: when every feed or article failed so the dataset is empty and
CSV output is enabled, the run still returns normally and writes the
dated archival file containing only the header row URL, Keywords,
Text. -/
theorem empty_dataset_csv_header_only (env : FetchEnv) (feeds? : Option (List String))
    (today : Date) (h : buildData env (collectLinks env (feeds?.getD [])) = []) :
    collect_news_articles env (.ok (.dict feeds?)) today true =
      .ok ⟨[], some ⟨strftimeMDY today ++ "_news.csv", [csvHeader]⟩⟩ := by
  simp [collect_news_articles, h, dfToCsv]

/-- Witness for C6 with a concrete all-failing environment. -/
theorem empty_dataset_csv_header_only_witness :
    buildData envAllFail (collectLinks envAllFail ((some ["http://feed"]).getD [])) = [] ∧
    collect_news_articles envAllFail (.ok (.dict (some ["http://feed"]))) d0 true =
      .ok ⟨[], some ⟨strftimeMDY d0 ++ "_news.csv", [csvHeader]⟩⟩ :=
  ⟨rfl, empty_dataset_csv_header_only envAllFail (some ["http://feed"]) d0 rfl⟩

/-- Every link the feed loop accumulates is non-empty, because an
item contributes only when its link tag exists and has truthy
(non-empty) text. -/
lemma mem_feedLinks_ne (env : FetchEnv) (f u : String) (hu : u ∈ feedLinks env f) :
    u ≠ "" := by
  unfold feedLinks at hu
  split at hu
  · simp at hu
  · rw [List.mem_filterMap] at hu
    obtain ⟨it, _, hit⟩ := hu
    split at hit
    · exact Option.noConfusion hit
    · split at hit
      · exact Option.noConfusion hit
      · rename_i s hs
        injection hit with h
        rw [h] at hs
        exact hs

/-- Non-emptiness of links lifted over the whole feed loop. -/
lemma mem_collectLinks_ne (env : FetchEnv) (feeds : List String) (u : String)
    (hu : u ∈ collectLinks env feeds) : u ≠ "" := by
  induction feeds with
  | nil => simp [collectLinks] at hu
  | cons a rest ih =>
      rw [collectLinks, List.mem_append] at hu
      cases hu with
      | inl h => exact mem_feedLinks_ne env a u h
      | inr h => exact ih h

/-- A successfully processed article yields a row carrying exactly
the URL it was processed from. -/
lemma processArticle_some_url (env : FetchEnv) (u : String) (r : Row)
    (h : processArticle env u = some r) : r.url = u := by
  unfold processArticle at h
  split at h
  · exact Option.noConfusion h
  · split at h
    · exact Option.noConfusion h
    · split at h
      · exact Option.noConfusion h
      · injection h with h2
        rw [← h2]

/-- Every row of the article loop arises from some URL of the input
list on which processing succeeded. -/
lemma mem_buildData (env : FetchEnv) (urls : List String) (r : Row)
    (hr : r ∈ buildData env urls) :
    ∃ u ∈ urls, processArticle env u = some r := by
  induction urls with
  | nil => simp [buildData] at hr
  | cons u rest ih =>
      unfold buildData at hr
      split at hr
      · rename_i r0 h0
        rcases List.mem_cons.mp hr with h | h
        · exact ⟨u, List.mem_cons_self u rest, h ▸ h0⟩
        · obtain ⟨v, hv, hp⟩ := ih h
          exact ⟨v, List.mem_cons_of_mem u hv, hp⟩
      · obtain ⟨v, hv, hp⟩ := ih hr
        exact ⟨v, List.mem_cons_of_mem u hv, hp⟩

/-- C7: every row of a dataset returned by collect_news_articles has
a non-empty source URL, and exists only because download, parse and
keyword extraction all succeeded on that URL, producing exactly that
row. -/
theorem rows_invariant (env : FetchEnv) (cfg : Except PyErr YamlValue) (today : Date)
    (oc : Bool) (res : RunResult) (r : Row)
    (hres : collect_news_articles env cfg today oc = .ok res) (hr : r ∈ res.rows) :
    r.url ≠ "" ∧ processArticle env r.url = some r := by
  match cfg with
  | .error e => exact absurd hres (by simp [collect_news_articles])
  | .ok .nondict => exact absurd hres (by simp [collect_news_articles])
  | .ok (.dict feeds?) =>
      have h2 : (⟨buildData env (collectLinks env (feeds?.getD [])),
          if oc then
            some (dfToCsv today (buildData env (collectLinks env (feeds?.getD []))))
          else none⟩ : RunResult) = res := Except.ok.inj hres
      rw [← h2] at hr
      obtain ⟨u, hu, hp⟩ := mem_buildData env (collectLinks env (feeds?.getD [])) r hr
      have hurl : r.url = u := processArticle_some_url env u r hp
      constructor
      · rw [hurl]
        exact mem_collectLinks_ne env (feeds?.getD []) u hu
      · rw [hurl]
        exact hp

/-- Witness for C7: a concrete successful run with one article. -/
theorem rows_invariant_witness :
    collect_news_articles envOneGood (.ok (.dict (some ["http://feed"]))) d0 false =
      .ok ⟨[⟨"http://a", ["k1", "k2"], "body"⟩], none⟩ ∧
    (⟨"http://a", ["k1", "k2"], "body"⟩ : Row) ∈
      (⟨[⟨"http://a", ["k1", "k2"], "body"⟩], none⟩ : RunResult).rows ∧
    (Row.url ⟨"http://a", ["k1", "k2"], "body"⟩ ≠ "" ∧
     processArticle envOneGood (Row.url ⟨"http://a", ["k1", "k2"], "body"⟩) =
       some ⟨"http://a", ["k1", "k2"], "body"⟩) :=
  ⟨rfl, List.Mem.head _,
   rows_invariant envOneGood (.ok (.dict (some ["http://feed"]))) d0 false
     ⟨[⟨"http://a", ["k1", "k2"], "body"⟩], none⟩ ⟨"http://a", ["k1", "k2"], "body"⟩
     rfl (List.Mem.head _)⟩

/-- C8: with no mask and a fixed integer random seed in the Style
Configuration, two generate_wordcloud invocations on the same text at
any two ambient global random states produce identical saved images:
the seeded layout does not consume the ambient state. -/
theorem fixed_seed_deterministic (ext : RenderEnv) (text outName : String) (today : Date)
    (s : Style) (seed rng1 rng2 : Nat) (hm : s.mask_image = none)
    (hs : s.random_state = some seed) :
    generate_wordcloud ext text outName today s rng1 =
      generate_wordcloud ext text outName today s rng2 := by
  simp [generate_wordcloud, hm, wcGenerate, hs]

/-- Witness for C8 at a concrete seeded style and two distinct
ambient random states. -/
theorem fixed_seed_deterministic_witness :
    styleSeeded.mask_image = none ∧ styleSeeded.random_state = some 7 ∧
    generate_wordcloud rcEnv0 "news words" "original_wordcloud" d0 styleSeeded 0 =
      generate_wordcloud rcEnv0 "news words" "original_wordcloud" d0 styleSeeded 1 :=
  ⟨rfl, rfl,
   fixed_seed_deterministic rcEnv0 "news words" "original_wordcloud" d0 styleSeeded 7 0 1
     rfl rfl⟩

/-- C9: whenever the NLTK lookup for a requested resource fails (the
first find raises LookupError, or it raises another exception and the
fallback find raises LookupError), the downloader is invoked with the
literal string resource_name, so the requested resource is downloaded
only in the degenerate case that it is itself named resource_name. -/
theorem download_receives_literal (env : NltkEnv) (name : String)
    (h : env.findTok ("tokenizers/" ++ name ++ ".zip") = .lookupErr ∨
         (env.findTok ("tokenizers/" ++ name ++ ".zip") = .otherErr ∧
          env.findTok ("tokenizers/" ++ name) = .lookupErr)) :
    check_nltk_resource env name = .ok ["resource_name"] ∧
    ∀ ds, check_nltk_resource env name = .ok ds → (name ∈ ds ↔ name = "resource_name") := by
  have hc : check_nltk_resource env name = .ok ["resource_name"] := by
    rcases h with h1 | ⟨h1, h2⟩
    · simp [check_nltk_resource, h1]
    · simp [check_nltk_resource, h1, h2]
  refine ⟨hc, ?_⟩
  intro ds hds
  rw [hc] at hds
  have : ["resource_name"] = ds := Except.ok.inj hds
  rw [← this]
  simp

/-- Witness for C9 with every lookup missing and the real resource
name the script checks. -/
theorem download_receives_literal_witness :
    (nltkAllMissing.findTok ("tokenizers/" ++ "punkt_tab" ++ ".zip") = .lookupErr ∨
     (nltkAllMissing.findTok ("tokenizers/" ++ "punkt_tab" ++ ".zip") = .otherErr ∧
      nltkAllMissing.findTok ("tokenizers/" ++ "punkt_tab") = .lookupErr)) ∧
    (check_nltk_resource nltkAllMissing "punkt_tab" = .ok ["resource_name"] ∧
     ∀ ds, check_nltk_resource nltkAllMissing "punkt_tab" = .ok ds →
       ("punkt_tab" ∈ ds ↔ "punkt_tab" = "resource_name")) :=
  ⟨Or.inl rfl, download_receives_literal nltkAllMissing "punkt_tab" (Or.inl rfl)⟩

/-- C10: a config that parses to a non-mapping value (such as None
from an empty file) makes collect_news_articles raise AttributeError
at the feeds lookup, uncaught; the absent-key-yields-empty behavior
holds when the parse result is a mapping. -/
theorem nondict_config_raises (env : FetchEnv) (today : Date) (oc : Bool) :
    collect_news_articles env (.ok .nondict) today oc = .error .attributeError ∧
    collect_news_articles env (.ok (.dict none)) today oc =
      .ok ⟨[], if oc then some (dfToCsv today []) else none⟩ :=
  ⟨rfl, rfl⟩
